import Mathlib

/-!
Verification of the EWPM backend authorization, tenant-isolation and
resource-management core.  The definitions below are shallow embeddings of
the JavaScript source: mongoose documents become Lean structures, mongoose
queries over collections become functions over lists, and each Express
controller or middleware becomes a pure function from the request data and
the relevant collections to an outcome (and the updated collections where
the controller mutates state).
-/

namespace EWPM

/-- The four roles of the User model enum
(src/src/models/User.model.js, field role). -/
inductive Role where
  | SUPER_ADMIN
  | ORG_ADMIN
  | PROJECT_MANAGER
  | EMPLOYEE
deriving DecidableEq, Repr

/-- Boolean capability flags for one CRUD resource category
(Permission model, src/unnamed/part_015). -/
structure CrudOps where
  create : Bool
  read : Bool
  update : Bool
  delete : Bool
deriving DecidableEq, Repr

/-- Capability flags for the task category, which additionally has assign. -/
structure TaskOps where
  create : Bool
  read : Bool
  update : Bool
  delete : Bool
  assign : Bool
deriving DecidableEq, Repr

/-- Capability flags for a read-only category (reports, audit logs). -/
structure ReadOps where
  read : Bool
deriving DecidableEq, Repr

/-- The capability matrix shape of the Permission model
(src/unnamed/part_015, permissions subdocument). -/
structure PermissionMatrix where
  manageTenants : CrudOps
  manageUsers : CrudOps
  manageProjects : CrudOps
  manageTasks : TaskOps
  viewReports : ReadOps
  viewAuditLogs : ReadOps
deriving DecidableEq, Repr

/-- Embedding of Permission.getDefaultPermissionsForRole
(src/unnamed/part_015 lines 62-99).  The source takes the role as a free
string and falls back to the EMPLOYEE row for unknown strings; the User
model restricts role to the four enum values, so the embedding takes the
closed Role type and the fallback row is unreachable. -/
def getDefaultPermissionsForRole : Role → PermissionMatrix
  | Role.SUPER_ADMIN =>
    { manageTenants := ⟨true, true, true, true⟩
      manageUsers := ⟨true, true, true, true⟩
      manageProjects := ⟨false, false, false, false⟩
      manageTasks := ⟨false, false, false, false, false⟩
      viewReports := ⟨false⟩
      viewAuditLogs := ⟨true⟩ }
  | Role.ORG_ADMIN =>
    { manageTenants := ⟨false, false, false, false⟩
      manageUsers := ⟨true, true, true, true⟩
      manageProjects := ⟨true, true, true, true⟩
      manageTasks := ⟨true, true, true, true, true⟩
      viewReports := ⟨true⟩
      viewAuditLogs := ⟨true⟩ }
  | Role.PROJECT_MANAGER =>
    { manageTenants := ⟨false, false, false, false⟩
      manageUsers := ⟨false, false, false, false⟩
      manageProjects := ⟨true, true, true, false⟩
      manageTasks := ⟨true, true, true, true, true⟩
      viewReports := ⟨true⟩
      viewAuditLogs := ⟨false⟩ }
  | Role.EMPLOYEE =>
    { manageTenants := ⟨false, false, false, false⟩
      manageUsers := ⟨false, false, false, false⟩
      manageProjects := ⟨false, true, false, false⟩
      manageTasks := ⟨false, true, true, false, false⟩
      viewReports := ⟨false⟩
      viewAuditLogs := ⟨false⟩ }

/-- Role-default capability table written from the words of the spec
(section 4.1): SUPER_ADMIN gets tenant CRUD, user CRUD, audit read and
nothing else; ORG_ADMIN gets user CRUD, project CRUD, task CRUD plus
assign, report read, audit read and no tenant capabilities;
PROJECT_MANAGER gets project create, read and update but not delete,
task CRUD plus assign and report read only; EMPLOYEE gets project read
and task read and update only.  This definition follows the spec text,
not the source, and is compared with the source embedding above. -/
def roleDefaultsSpec : Role → PermissionMatrix
  | Role.SUPER_ADMIN =>
    { manageTenants := ⟨true, true, true, true⟩
      manageUsers := ⟨true, true, true, true⟩
      manageProjects := ⟨false, false, false, false⟩
      manageTasks := ⟨false, false, false, false, false⟩
      viewReports := ⟨false⟩
      viewAuditLogs := ⟨true⟩ }
  | Role.ORG_ADMIN =>
    { manageTenants := ⟨false, false, false, false⟩
      manageUsers := ⟨true, true, true, true⟩
      manageProjects := ⟨true, true, true, true⟩
      manageTasks := ⟨true, true, true, true, true⟩
      viewReports := ⟨true⟩
      viewAuditLogs := ⟨true⟩ }
  | Role.PROJECT_MANAGER =>
    { manageTenants := ⟨false, false, false, false⟩
      manageUsers := ⟨false, false, false, false⟩
      manageProjects := ⟨true, true, true, false⟩
      manageTasks := ⟨true, true, true, true, true⟩
      viewReports := ⟨true⟩
      viewAuditLogs := ⟨false⟩ }
  | Role.EMPLOYEE =>
    { manageTenants := ⟨false, false, false, false⟩
      manageUsers := ⟨false, false, false, false⟩
      manageProjects := ⟨false, true, false, false⟩
      manageTasks := ⟨false, true, true, false, false⟩
      viewReports := ⟨false⟩
      viewAuditLogs := ⟨false⟩ }

/-- Task status enum of the Task model (src/unnamed/part_013 line 38). -/
inductive TaskStatus where
  | TODO
  | IN_PROGRESS
  | IN_REVIEW
  | DONE
  | BLOCKED
  | CANCELLED
deriving DecidableEq, Repr

/-- Embedding of the Task model method canTransitionTo
(src/unnamed/part_013 lines 138-149): the finite transition table with
CANCELLED terminal; a status not in the table yields false. -/
def canTransitionTo (current newStatus : TaskStatus) : Bool :=
  let valid : List TaskStatus :=
    match current with
    | TaskStatus.TODO => [TaskStatus.IN_PROGRESS, TaskStatus.CANCELLED]
    | TaskStatus.IN_PROGRESS =>
        [TaskStatus.IN_REVIEW, TaskStatus.BLOCKED, TaskStatus.CANCELLED]
    | TaskStatus.IN_REVIEW => [TaskStatus.DONE, TaskStatus.IN_PROGRESS]
    | TaskStatus.DONE => [TaskStatus.IN_PROGRESS]
    | TaskStatus.BLOCKED => [TaskStatus.IN_PROGRESS, TaskStatus.CANCELLED]
    | TaskStatus.CANCELLED => []
  valid.contains newStatus

/-- Member role enum of the Project model members subdocument. -/
inductive MemberRole where
  | MEMBER
  | LEAD
  | VIEWER
deriving DecidableEq, Repr

/-- One entry of the members list of a project. -/
structure Member where
  userId : Nat
  role : MemberRole
deriving DecidableEq, Repr

/-- Project document (src/src/models/Project.model.js), restricted to the
fields the verified controllers read. -/
structure ProjectRec where
  id : Nat
  tenantId : String
  ownerId : Nat
  managerId : Nat
  members : List Member
deriving DecidableEq, Repr

/-- Task document (src/unnamed/part_013), restricted to the fields the
verified controllers read. -/
structure TaskRec where
  id : Nat
  tenantId : String
  projectId : Nat
  assigneeId : Option Nat
  reporterId : Nat
  status : TaskStatus
deriving DecidableEq, Repr

/-- The authenticated principal attached to the request by the
authenticate middleware (req.user, decoded from the JWT). -/
structure Principal where
  id : Nat
  role : Role
  tenantId : Option String
deriving DecidableEq, Repr

/-- Outcome of the updateTaskStatus controller.  notFound is the 404
branch, notAssignee and notManagedProject are the two 403 branches, ok is
the success response. -/
inductive StatusOutcome where
  | notFound
  | notAssignee
  | notManagedProject
  | invalidTransition
  | ok
deriving DecidableEq, Repr

/-- The repeated manager-or-owner-or-lead-member check of the task and
project controllers: userId equals managerId or ownerId, or appears in
members with role LEAD. -/
def isManagerOrLead (userId : Nat) (p : ProjectRec) : Bool :=
  (p.managerId = userId || p.ownerId = userId)
    || p.members.any (fun m => m.userId = userId && m.role = MemberRole.LEAD)

/-- Embedding of the updateTaskStatus controller
(src/unnamed/part_010 lines 303-357).  The task is fetched by id and
tenantId; an EMPLOYEE must be the assignee; a PROJECT_MANAGER must manage
the owning project when that project is found.  The transition-validity
check appears in the source only as commented-out code (lines 346-352),
so this embedding, like the source, saves any requested status; the
invalidTransition outcome is never produced. -/
def updateTaskStatus (reqUser : Principal) (tenant : String) (taskId : Nat)
    (newStatus : TaskStatus) (tasks : List TaskRec)
    (projects : List ProjectRec) : StatusOutcome × List TaskRec :=
  match tasks.find? (fun t => t.id = taskId && t.tenantId = tenant) with
  | none => (StatusOutcome.notFound, tasks)
  | some task =>
    if reqUser.role = Role.EMPLOYEE && !(task.assigneeId = some reqUser.id) then
      (StatusOutcome.notAssignee, tasks)
    else if reqUser.role = Role.PROJECT_MANAGER
        && (match projects.find? (fun p => p.id = task.projectId) with
            | some p => !isManagerOrLead reqUser.id p
            | none => false) then
      (StatusOutcome.notManagedProject, tasks)
    else
      (StatusOutcome.ok,
        tasks.map (fun t =>
          if t.id = task.id then { t with status := newStatus } else t))

/-- Request data read by the tenant middleware: the x-tenant-id header,
the tenantId query parameter, the host header, and the authenticated
principal (present on every route considered here, since authenticate is
mounted first).  Absent or empty header and query values are modelled as
none. -/
structure TenantRequest where
  headerTenantId : Option String
  queryTenantId : Option String
  host : Option String
  user : Principal
deriving DecidableEq, Repr

/-- JavaScript truthiness for optional strings: the empty string is falsy
and behaves like an absent value in the chained fallbacks of
resolveTenant. -/
def jsTruthy : Option String → Option String
  | some s => if s = "" then none else some s
  | none => none

/-- Explicit tenant indicator of resolveTenant
(src/src/middleware/tenant.middleware.js lines 11-13): header, then query,
then the first dot-separated component of the host (subdomain). -/
def explicitTenantId (req : TenantRequest) : Option String :=
  (jsTruthy req.headerTenantId).orElse fun _ =>
    (jsTruthy req.queryTenantId).orElse fun _ =>
      jsTruthy (req.host.bind fun h => (h.splitOn ".").head?)

/-- Resolved tenant of resolveTenant (lines 11-18): the explicit indicator
if present, else the home tenant of the authenticated principal. -/
def resolvedTenantId (req : TenantRequest) : Option String :=
  (explicitTenantId req).orElse fun _ => jsTruthy req.user.tenantId

/-- Outcome of the resolveTenant middleware: tenantRequired is the 400
branch, accessDenied the 403 branch, ok binds req.tenantId and continues. -/
inductive TenantOutcome where
  | tenantRequired
  | accessDenied
  | ok (tenantId : String)
deriving DecidableEq, Repr

/-- Embedding of resolveTenant
(src/src/middleware/tenant.middleware.js lines 8-49).  The middleware is
pure resolution: it inspects the request and either fails or binds the
tenant id; it touches no collection.  A principal whose home tenant
differs from the resolved tenant is denied unless the role is
SUPER_ADMIN. -/
def resolveTenant (req : TenantRequest) : TenantOutcome :=
  match resolvedTenantId req with
  | none => TenantOutcome.tenantRequired
  | some tid =>
    if req.user.tenantId ≠ some tid ∧ req.user.role ≠ Role.SUPER_ADMIN then
      TenantOutcome.accessDenied
    else
      TenantOutcome.ok tid

/-- The four tenant-scoped resource route groups whose route files mount
the identical guard chain authenticate, resolveTenant, tenantScope,
preventSuperAdminTenantWork (project.routes.js, task.routes.js,
report.routes.js, audit.routes.js). -/
inductive TenantRoute where
  | PROJECT
  | TASK
  | REPORT
  | AUDIT
deriving DecidableEq, Repr

/-- Outcome of the shared middleware chain in front of every handler of a
tenant-scoped route group. -/
inductive GuardOutcome where
  | tenantRequired
  | tenantAccessDenied
  | superAdminScopeViolation
  | proceed (tenantId : String)
deriving DecidableEq, Repr

/-- Embedding of the middleware chain mounted by each of the four
tenant-scoped route files: resolveTenant, then tenantScope (which only
extends the query filter and makes no decision), then
preventSuperAdminTenantWork (src/unnamed/part_005 lines 7-15), which
rejects every request whose principal has role SUPER_ADMIN with the 403
response regardless of method, path, action or resource.  The chain is
the same for all four groups, so the route argument does not influence
the result. -/
def tenantScopedRouteGuard (route : TenantRoute) (req : TenantRequest) :
    GuardOutcome :=
  match route, resolveTenant req with
  | _, TenantOutcome.tenantRequired => GuardOutcome.tenantRequired
  | _, TenantOutcome.accessDenied => GuardOutcome.tenantAccessDenied
  | _, TenantOutcome.ok tid =>
    if req.user.role = Role.SUPER_ADMIN then
      GuardOutcome.superAdminScopeViolation
    else
      GuardOutcome.proceed tid

/-- User document (src/src/models/User.model.js), restricted to the fields
the verified controllers read.  SUPER_ADMIN users carry no tenantId. -/
structure UserRec where
  id : Nat
  role : Role
  tenantId : Option String
  isActive : Bool
deriving DecidableEq, Repr

/-- Permission document (src/unnamed/part_015): one capability matrix per
user, with an isActive flag. -/
structure PermRecord where
  userId : Nat
  permissions : PermissionMatrix
  isActive : Bool
deriving DecidableEq, Repr

/-- Embedding of Permission.findOneAndUpdate with upsert on the filter
userId and isActive true (src/unnamed/part_007 lines 196-203 and
302-309): the first matching record has its matrix replaced, and when no
record matches a fresh active record is inserted. -/
def upsertActivePermission : List PermRecord → Nat → PermissionMatrix →
    List PermRecord
  | [], targetId, m => [{ userId := targetId, permissions := m, isActive := true }]
  | r :: rest, targetId, m =>
    if r.userId = targetId && r.isActive then
      { r with permissions := m } :: rest
    else
      r :: upsertActivePermission rest targetId m

/-- Effective capability matrix of a user: the active override record if
one exists, else the role defaults.  This mirrors the lookup of
getUserPermissions (src/unnamed/part_007 lines 109-113). -/
def effectivePermissions (perms : List PermRecord) (u : UserRec) :
    PermissionMatrix :=
  match perms.find? (fun r => r.userId = u.id && r.isActive) with
  | some r => r.permissions
  | none => getDefaultPermissionsForRole u.role

/-- Outcome of the permission update and reset controllers.  userNotFound
is the 404 branch; scopeDenied and tenantDenied are the two ORG_ADMIN
restriction branches; cannotModifySelf is the self-modification branch
with the message about not modifying your own permissions; updated is the
success response. -/
inductive PermOutcome where
  | userNotFound
  | scopeDenied
  | tenantDenied
  | cannotModifySelf
  | updated
deriving DecidableEq, Repr

/-- Embedding of updateUserPermissions (src/unnamed/part_007 lines
148-266).  The target user is fetched by id; an ORG_ADMIN caller may only
touch PROJECT_MANAGER and EMPLOYEE targets inside the own tenant; a
SUPER_ADMIN or ORG_ADMIN caller targeting the own id is rejected with the
self-modification message; otherwise the matrix is upserted. -/
def updateUserPermissions (users : List UserRec) (perms : List PermRecord)
    (reqUser : Principal) (reqTenantId : Option String) (targetId : Nat)
    (m : PermissionMatrix) : PermOutcome × List PermRecord :=
  match users.find? (fun u => u.id = targetId) with
  | none => (PermOutcome.userNotFound, perms)
  | some user =>
    if reqUser.role = Role.ORG_ADMIN
        && !(user.role = Role.PROJECT_MANAGER)
        && !(user.role = Role.EMPLOYEE) then
      (PermOutcome.scopeDenied, perms)
    else if reqUser.role = Role.ORG_ADMIN
        && !(user.tenantId = reqTenantId) then
      (PermOutcome.tenantDenied, perms)
    else if reqUser.role = Role.SUPER_ADMIN && targetId = reqUser.id then
      (PermOutcome.cannotModifySelf, perms)
    else if reqUser.role = Role.ORG_ADMIN && targetId = reqUser.id then
      (PermOutcome.cannotModifySelf, perms)
    else
      (PermOutcome.updated, upsertActivePermission perms targetId m)

/-- Embedding of resetUserPermissions (src/unnamed/part_007 lines
269-372).  The target user is fetched by id; the ORG_ADMIN scope and
tenant restrictions are checked; then the matrix is upserted with the
role defaults of the target.  The source contains no self-modification
check on this path. -/
def resetUserPermissions (users : List UserRec) (perms : List PermRecord)
    (reqUser : Principal) (reqTenantId : Option String) (targetId : Nat) :
    PermOutcome × List PermRecord :=
  match users.find? (fun u => u.id = targetId) with
  | none => (PermOutcome.userNotFound, perms)
  | some user =>
    if reqUser.role = Role.ORG_ADMIN
        && !(user.role = Role.PROJECT_MANAGER)
        && !(user.role = Role.EMPLOYEE) then
      (PermOutcome.scopeDenied, perms)
    else if reqUser.role = Role.ORG_ADMIN
        && !(user.tenantId = reqTenantId) then
      (PermOutcome.tenantDenied, perms)
    else
      (PermOutcome.updated,
        upsertActivePermission perms targetId
          (getDefaultPermissionsForRole user.role))

/-- Outcome of the delete-task pipeline.  roleDenied is the 403 of the
route-level authorize middleware; notFound is the 404 of the controller;
notManagedProject is the 403 for a PROJECT_MANAGER outside the own
projects; insufficientCapability would be a denial based on the
capability matrix and is never produced by the pipeline; ok is the
success response. -/
inductive DeleteTaskOutcome where
  | roleDenied
  | notFound
  | notManagedProject
  | insufficientCapability
  | ok
deriving DecidableEq, Repr

/-- Embedding of the delete-task pipeline: the route
(src/src/routes/task.routes.js line 27) runs authorize with the roles
ORG_ADMIN and PROJECT_MANAGER, then the deleteTask controller
(src/unnamed/part_010 lines 526-583) fetches the task by id and tenant,
checks project management facts for a PROJECT_MANAGER caller, and deletes
the document.  No step of the pipeline reads the Permission collection:
the permission store is not among the inputs because the source never
consults it here. -/
def deleteTask (reqUser : Principal) (tenant : String) (taskId : Nat)
    (tasks : List TaskRec) (projects : List ProjectRec) :
    DeleteTaskOutcome × List TaskRec :=
  if !([Role.ORG_ADMIN, Role.PROJECT_MANAGER].any (fun r => reqUser.role = r)) then
    (DeleteTaskOutcome.roleDenied, tasks)
  else
    match tasks.find? (fun t => t.id = taskId && t.tenantId = tenant) with
    | none => (DeleteTaskOutcome.notFound, tasks)
    | some task =>
      if reqUser.role = Role.PROJECT_MANAGER
          && (match projects.find? (fun p => p.id = task.projectId) with
              | some p => !isManagerOrLead reqUser.id p
              | none => false) then
        (DeleteTaskOutcome.notManagedProject, tasks)
      else
        (DeleteTaskOutcome.ok, tasks.eraseP (fun t => t.id = task.id))

/-- Outcome of the user management controllers.  notFound is the 404
branch; forbiddenAssignSuperAdmin is the 403 for an ORG_ADMIN assigning
the SUPER_ADMIN role; cannotManageSuperAdmin would be a dedicated denial
for SUPER_ADMIN targets and is never produced by these controllers; ok is
the success response. -/
inductive UserOutcome where
  | notFound
  | forbiddenAssignSuperAdmin
  | cannotManageSuperAdmin
  | ok
deriving DecidableEq, Repr

/-- The findOne query shared by getUserById, updateUser, deleteUser and
updateUserRole (src/src/controllers/user.controller.js): id and tenant
must match, and for an ORG_ADMIN caller the query additionally requires
role not equal to SUPER_ADMIN, so SUPER_ADMIN user records are invisible
to ORG_ADMIN callers. -/
def findUserScoped (users : List UserRec) (targetId : Nat) (tenant : String)
    (reqRole : Role) : Option UserRec :=
  users.find? (fun u =>
    u.id = targetId && u.tenantId = some tenant
      && (if reqRole = Role.ORG_ADMIN then !(u.role = Role.SUPER_ADMIN) else true))

/-- Fields of the update-user request body read by the embedding; profile
fields not consulted by any verified claim are omitted. -/
structure UserUpdateBody where
  role : Option Role
deriving DecidableEq, Repr

/-- Embedding of getUserById (src/src/controllers/user.controller.js lines
80-109): only the outcome matters, the handler mutates nothing. -/
def getUserById (users : List UserRec) (targetId : Nat) (tenant : String)
    (reqUser : Principal) : UserOutcome :=
  match findUserScoped users targetId tenant reqUser.role with
  | none => UserOutcome.notFound
  | some _ => UserOutcome.ok

/-- Embedding of updateUser (src/src/controllers/user.controller.js lines
172-226): fetch with the scoped query, reject an ORG_ADMIN assigning the
SUPER_ADMIN role, else apply the body and save. -/
def updateUser (users : List UserRec) (targetId : Nat) (tenant : String)
    (reqUser : Principal) (body : UserUpdateBody) :
    UserOutcome × List UserRec :=
  match findUserScoped users targetId tenant reqUser.role with
  | none => (UserOutcome.notFound, users)
  | some user =>
    if reqUser.role = Role.ORG_ADMIN && body.role = some Role.SUPER_ADMIN then
      (UserOutcome.forbiddenAssignSuperAdmin, users)
    else
      (UserOutcome.ok,
        users.map (fun u =>
          if u.id = user.id then { u with role := body.role.getD u.role } else u))

/-- Embedding of deleteUser (src/src/controllers/user.controller.js lines
228-273): fetch with the scoped query, then delete the document. -/
def deleteUser (users : List UserRec) (targetId : Nat) (tenant : String)
    (reqUser : Principal) : UserOutcome × List UserRec :=
  match findUserScoped users targetId tenant reqUser.role with
  | none => (UserOutcome.notFound, users)
  | some user =>
    (UserOutcome.ok, users.eraseP (fun u => u.id = user.id))

/-- Embedding of updateUserRole (src/src/controllers/user.controller.js
lines 275-330): fetch with the scoped query, reject an ORG_ADMIN
assigning the SUPER_ADMIN role, else set the role and save. -/
def updateUserRole (users : List UserRec) (targetId : Nat) (tenant : String)
    (reqUser : Principal) (newRole : Role) : UserOutcome × List UserRec :=
  match findUserScoped users targetId tenant reqUser.role with
  | none => (UserOutcome.notFound, users)
  | some user =>
    if reqUser.role = Role.ORG_ADMIN && newRole = Role.SUPER_ADMIN then
      (UserOutcome.forbiddenAssignSuperAdmin, users)
    else
      (UserOutcome.ok,
        users.map (fun u =>
          if u.id = user.id then { u with role := newRole } else u))

/-- AuditLog document (src/unnamed/part_014), restricted to the fields the
listing queries filter on.  Timestamps are omitted: the sort by timestamp
only orders results and the verified properties are order-insensitive, so
the store order stands in for the sorted order. -/
structure AuditRec where
  id : Nat
  tenantId : Option String
  userId : Option Nat
  action : Option String
  resourceType : Option String
deriving DecidableEq, Repr

/-- Query parameters of getAuditLogs; date-range filters are omitted along
with the timestamps they act on. -/
structure AuditQuery where
  action : Option String
  resourceType : Option String
  userId : Option Nat
  page : Nat
  limit : Nat
deriving DecidableEq, Repr

/-- The ids of all SUPER_ADMIN users, as collected by getAuditLogs
(src/unnamed/part_009 lines 1209-1210) with User.find on role
SUPER_ADMIN. -/
def superAdminIds (users : List UserRec) : List Nat :=
  (users.filter (fun u => u.role = Role.SUPER_ADMIN)).map (fun u => u.id)

/-- The tenant, action and resourceType clauses shared by the find query
and the count query of getAuditLogs. -/
def auditBaseMatch (tenant : String) (q : AuditQuery) (r : AuditRec) : Bool :=
  r.tenantId = some tenant
    && (match q.action with
        | some a => r.action = some a
        | none => true)
    && (match q.resourceType with
        | some rt => r.resourceType = some rt
        | none => true)

/-- The userId clause of the find query of getAuditLogs (src/unnamed/part_009
lines 1202 and 1213-1219): with SUPER_ADMIN users present, the clause is
an equality combined with a not-in over the SUPER_ADMIN ids when an
explicit userId filter is given, and the bare not-in otherwise; a record
with a null userId passes the not-in. -/
def auditMainUserClause (superIds : List Nat) (q : AuditQuery)
    (r : AuditRec) : Bool :=
  if superIds.isEmpty then
    match q.userId with
    | some k => r.userId = some k
    | none => true
  else
    match q.userId with
    | some k => r.userId = some k && !(superIds.any (fun i => r.userId = some i))
    | none => !(superIds.any (fun i => r.userId = some i))

/-- The userId clause of the separately rebuilt count query of getAuditLogs
(src/unnamed/part_009 lines 1241-1249). -/
def auditCountUserClause (superIds : List Nat) (q : AuditQuery)
    (r : AuditRec) : Bool :=
  if !superIds.isEmpty then
    match q.userId with
    | some k => r.userId = some k && !(superIds.any (fun i => r.userId = some i))
    | none => !(superIds.any (fun i => r.userId = some i))
  else
    match q.userId with
    | some k => r.userId = some k
    | none => true

/-- The role the populate step attaches to a log entry: the role of the
first user document with the author id, none for a null author or a
missing user document. -/
def auditAuthorRole (users : List UserRec) (r : AuditRec) : Option Role :=
  r.userId.bind fun k => (users.find? (fun u => u.id = k)).map (fun u => u.role)

/-- Embedding of getAuditLogs (src/unnamed/part_009 lines 1195-1267),
returning the page of results and the total used for pagination metadata:
the find query with the not-in clause is paged with skip and limit, a
second in-memory filter drops entries whose populated author role is
SUPER_ADMIN, and the total comes from countDocuments on the rebuilt count
query. -/
def getAuditLogs (users : List UserRec) (tenant : String) (q : AuditQuery)
    (store : List AuditRec) : List AuditRec × Nat :=
  let superIds := superAdminIds users
  let matched := store.filter (fun r =>
    auditBaseMatch tenant q r && auditMainUserClause superIds q r)
  let logs := (matched.drop ((q.page - 1) * q.limit)).take q.limit
  let filteredLogs := logs.filter (fun r =>
    !(auditAuthorRole users r = some Role.SUPER_ADMIN))
  let total := (store.filter (fun r =>
    auditBaseMatch tenant q r && auditCountUserClause superIds q r)).length
  (filteredLogs, total)

/-- Embedding of getUserAuditLogs (src/unnamed/part_009 lines 1293-1324):
the per-user listing filters on tenant and the path userId only and
applies no SUPER_ADMIN exclusion of any kind. -/
def getUserAuditLogs (tenant : String) (targetUserId : Nat) (page limit : Nat)
    (store : List AuditRec) : List AuditRec × Nat :=
  let matched := store.filter (fun r =>
    r.tenantId = some tenant && r.userId = some targetUserId)
  ((matched.drop ((page - 1) * limit)).take limit, matched.length)

/-- Whether an audit entry was authored by a SUPER_ADMIN user of the given
user collection.  This is the predicate of the spec, written from the
words of the audit query contract, and compared with the id-set clauses
the source builds. -/
def isSuperAdminAuthor (users : List UserRec) (r : AuditRec) : Bool :=
  users.any (fun u => u.role = Role.SUPER_ADMIN && r.userId = some u.id)

/-- The plain userId equality filter with no exclusion, as the count query
would read without the SUPER_ADMIN clause. -/
def auditPlainUserFilter (q : AuditQuery) (r : AuditRec) : Bool :=
  match q.userId with
  | some k => r.userId = some k
  | none => true

/-- Documents of the project collection are modelled as association lists
from field names to opaque string values, matching the dynamic object
the updateProject controller iterates over. -/
abbrev Doc := List (String × String)

/-- Reading a field of a document: the first binding of the key. -/
def getField (d : Doc) (k : String) : Option String :=
  (d.find? (fun kv => kv.1 = k)).map (fun kv => kv.2)

/-- JavaScript property assignment on the document model: the first
binding of the key is replaced, and a missing key is appended. -/
def setField : Doc → String → String → Doc
  | [], k, v => [(k, v)]
  | kv :: rest, k, v =>
    if kv.1 = k then (k, v) :: rest else kv :: setField rest k v

/-- The member-list normalization of updateProject (src/unnamed/part_010
lines 1016-1021) fills in default member roles and join dates; the member
values are opaque here, so the normalization is value-level identity:
only which field is written matters for the verified claims. -/
def normalizeMembers (v : String) : String := v

/-- One step of the field-update loop of updateProject
(src/unnamed/part_010 lines 1038-1042): every body key except tenantId,
ownerId and _id is assigned onto the project document. -/
def applyProjectField (acc : Doc) (kv : String × String) : Doc :=
  if !(kv.1 = "tenantId") && !(kv.1 = "ownerId") && !(kv.1 = "_id") then
    setField acc kv.1 kv.2
  else acc

/-- Embedding of the field-update phase of updateProject
(src/unnamed/part_010 lines 994-1044): a supplied members value is
normalized and assigned first and removed from the body, then the
remaining body keys are folded through applyProjectField. -/
def updateProject (proj : Doc) (body : Doc) : Doc :=
  let withMembers :=
    match getField body "members" with
    | some v => setField proj "members" (normalizeMembers v)
    | none => proj
  let bodyRest := body.filter (fun kv => !(kv.1 = "members"))
  bodyRest.foldl applyProjectField withMembers

/-- Outcome of the deleteProject controller: notFound is the 404 branch,
hasTasks is the 400 validation branch with the message about not deleting
a project with existing tasks, deleted is the success response. -/
inductive ProjectDeleteOutcome where
  | notFound
  | hasTasks
  | deleted
deriving DecidableEq, Repr

/-- Embedding of deleteProject (src/unnamed/part_010 lines 1141-1188):
the project is fetched by id and tenant, the tasks of the project are
counted, a positive count aborts with the validation error, otherwise the
project document is deleted.  The task collection is returned unchanged
in every branch, as the controller never writes it. -/
def deleteProject (tenant : String) (projId : Nat)
    (projects : List ProjectRec) (tasks : List TaskRec) :
    ProjectDeleteOutcome × List ProjectRec × List TaskRec :=
  match projects.find? (fun p => p.id = projId && p.tenantId = tenant) with
  | none => (ProjectDeleteOutcome.notFound, projects, tasks)
  | some project =>
    let taskCount := (tasks.filter (fun t => t.projectId = project.id)).length
    if taskCount > 0 then
      (ProjectDeleteOutcome.hasTasks, projects, tasks)
    else
      (ProjectDeleteOutcome.deleted,
        projects.eraseP (fun p => p.id = project.id), tasks)

/-! Concrete instances used by the closed witness and counterexample
theorems below: one tenant named acme with an ORG_ADMIN, a
PROJECT_MANAGER, a project managed by the PROJECT_MANAGER and a task in
that project, alongside a SUPER_ADMIN platform owner. -/

/-- The user collection of the override scenario: an ORG_ADMIN and a
PROJECT_MANAGER of the acme tenant. -/
def usersC1 : List UserRec :=
  [{ id := 1, role := Role.ORG_ADMIN, tenantId := some "acme", isActive := true },
   { id := 2, role := Role.PROJECT_MANAGER, tenantId := some "acme", isActive := true }]

/-- The ORG_ADMIN principal of the override scenario. -/
def adminC1 : Principal :=
  { id := 1, role := Role.ORG_ADMIN, tenantId := some "acme" }

/-- The PROJECT_MANAGER principal of the override scenario. -/
def pmC1 : Principal :=
  { id := 2, role := Role.PROJECT_MANAGER, tenantId := some "acme" }

/-- The user document of the PROJECT_MANAGER principal. -/
def pmUserC1 : UserRec :=
  { id := 2, role := Role.PROJECT_MANAGER, tenantId := some "acme", isActive := true }

/-- The PROJECT_MANAGER role defaults with manageTasks.delete turned off,
the matrix the ORG_ADMIN stores as an override. -/
def pmDeniedMatrixC1 : PermissionMatrix :=
  { getDefaultPermissionsForRole Role.PROJECT_MANAGER with
      manageTasks :=
        { (getDefaultPermissionsForRole Role.PROJECT_MANAGER).manageTasks with
            delete := false } }

/-- The permission store after the ORG_ADMIN stores the restrictive
override for the PROJECT_MANAGER. -/
def permsAfterC1 : List PermRecord :=
  (updateUserPermissions usersC1 [] adminC1 (some "acme") 2 pmDeniedMatrixC1).2

/-- A project of the acme tenant managed and owned by the
PROJECT_MANAGER. -/
def projectsC1 : List ProjectRec :=
  [{ id := 5, tenantId := "acme", ownerId := 2, managerId := 2, members := [] }]

/-- A task of the managed project. -/
def tasksC1 : List TaskRec :=
  [{ id := 10, tenantId := "acme", projectId := 5, assigneeId := none,
     reporterId := 1, status := TaskStatus.TODO }]

/-- A task of the acme tenant sitting in status DONE, for the status
transition scenario. -/
def taskDoneC2 : TaskRec :=
  { id := 1, tenantId := "acme", projectId := 5, assigneeId := none,
    reporterId := 1, status := TaskStatus.DONE }

/-- An ORG_ADMIN principal driving the status transition scenario. -/
def adminC2 : Principal :=
  { id := 1, role := Role.ORG_ADMIN, tenantId := some "acme" }

/-- A SUPER_ADMIN request against a tenant-scoped route, carrying an
explicit tenant header. -/
def reqC3 : TenantRequest :=
  { headerTenantId := some "acme", queryTenantId := none, host := none,
    user := { id := 9, role := Role.SUPER_ADMIN, tenantId := none } }

/-- An ORG_ADMIN of tenant acme addressing tenant beta through the
explicit header. -/
def reqC4 : TenantRequest :=
  { headerTenantId := some "beta", queryTenantId := none, host := none,
    user := { id := 3, role := Role.ORG_ADMIN, tenantId := some "acme" } }

/-- A user collection holding only a SUPER_ADMIN, for the
self-modification scenario. -/
def usersC6 : List UserRec :=
  [{ id := 1, role := Role.SUPER_ADMIN, tenantId := none, isActive := true }]

/-- The SUPER_ADMIN principal acting on the own permission record. -/
def pC6 : Principal :=
  { id := 1, role := Role.SUPER_ADMIN, tenantId := none }

/-- A user collection holding only an ORG_ADMIN of tenant acme. -/
def usersC6b : List UserRec :=
  [{ id := 4, role := Role.ORG_ADMIN, tenantId := some "acme", isActive := true }]

/-- The ORG_ADMIN principal acting on the own permission record. -/
def pC6b : Principal :=
  { id := 4, role := Role.ORG_ADMIN, tenantId := some "acme" }

/-- A user collection holding one SUPER_ADMIN record that an ORG_ADMIN
tries to manage. -/
def usersC7 : List UserRec :=
  [{ id := 7, role := Role.SUPER_ADMIN, tenantId := some "acme", isActive := true }]

/-- The ORG_ADMIN principal of the user management scenario. -/
def pC7 : Principal :=
  { id := 3, role := Role.ORG_ADMIN, tenantId := some "acme" }

/-- Users of the audit scenario: a SUPER_ADMIN and an ORG_ADMIN, both
with audit entries in tenant acme. -/
def usersC8 : List UserRec :=
  [{ id := 1, role := Role.SUPER_ADMIN, tenantId := some "acme", isActive := true },
   { id := 2, role := Role.ORG_ADMIN, tenantId := some "acme", isActive := true }]

/-- The audit store of the scenario: one entry authored by each user. -/
def storeC8 : List AuditRec :=
  [{ id := 100, tenantId := some "acme", userId := some 1, action := none,
     resourceType := none },
   { id := 101, tenantId := some "acme", userId := some 2, action := none,
     resourceType := none }]

/-- An audit query explicitly filtered by the SUPER_ADMIN user id. -/
def qC8 : AuditQuery :=
  { action := none, resourceType := none, userId := some 1, page := 1, limit := 50 }

/-- A project document of the update scenario. -/
def projC9 : Doc :=
  [("_id", "p1"), ("tenantId", "acme"), ("ownerId", "u1"),
   ("managerId", "u1"), ("name", "Alpha")]

/-- An update body that renames the project and also tries to move it to
another tenant and owner. -/
def bodyC9 : Doc :=
  [("name", "Beta"), ("tenantId", "evil"), ("ownerId", "u9")]

/-- The project collection of the delete scenario. -/
def projectsC10 : List ProjectRec :=
  [{ id := 5, tenantId := "acme", ownerId := 2, managerId := 2, members := [] }]

/-- The task collection of the delete scenario: one task in the project. -/
def tasksC10 : List TaskRec :=
  [{ id := 10, tenantId := "acme", projectId := 5, assigneeId := none,
     reporterId := 1, status := TaskStatus.TODO }]

/-! Theorems. -/

/-- C5: getDefaultPermissionsForRole is a pure function of the role alone
and returns, for each of the four roles, exactly the capability matrix of
the spec table: SUPER_ADMIN gets tenant CRUD, user CRUD and audit read
only; ORG_ADMIN gets user CRUD, project CRUD, task CRUD plus assign,
report read and audit read; PROJECT_MANAGER gets project create, read and
update without delete, task CRUD plus assign and report read only;
EMPLOYEE gets project read and task read and update only. -/
theorem getDefaultPermissionsForRole_matches_spec :
    ∀ r : Role, getDefaultPermissionsForRole r = roleDefaultsSpec r := by
  intro r
  cases r <;> rfl

/-- C2: the transition table of the Task model rejects DONE to BLOCKED
and allows DONE to IN_PROGRESS, but the status-update controller never
consults it: an update of a DONE task to BLOCKED is saved and reported as
success, with the stored status changed to BLOCKED, instead of being
rejected with an invalid-transition error. -/
theorem updateTaskStatus_accepts_done_to_blocked :
    canTransitionTo TaskStatus.DONE TaskStatus.BLOCKED = false ∧
    canTransitionTo TaskStatus.DONE TaskStatus.IN_PROGRESS = true ∧
    updateTaskStatus adminC2 "acme" 1 TaskStatus.BLOCKED [taskDoneC2] []
      = (StatusOutcome.ok, [{ taskDoneC2 with status := TaskStatus.BLOCKED }]) := by
  refine ⟨rfl, rfl, ?_⟩
  decide

/-- C3: a principal with role SUPER_ADMIN is denied with the
super-admin-scope rejection on every tenant-scoped resource route group
(project, task, report and audit), for every request on which a tenant
context resolves, independent of which tenant it is and of any resource
facts: the shared guard chain short-circuits before any handler runs. -/
theorem superAdmin_denied_on_tenant_scoped_routes
    (route : TenantRoute) (req : TenantRequest) (tid : String)
    (hrole : req.user.role = Role.SUPER_ADMIN)
    (hres : resolvedTenantId req = some tid) :
    tenantScopedRouteGuard route req = GuardOutcome.superAdminScopeViolation := by
  have hok : resolveTenant req = TenantOutcome.ok tid := by
    unfold resolveTenant
    rw [hres]
    exact if_neg (fun hcon => hcon.2 hrole)
  cases route <;> simp [tenantScopedRouteGuard, hok, hrole]

/-- Closed witness for C3: the concrete SUPER_ADMIN request with an
explicit acme tenant header resolves the acme tenant and is rejected by
the task route guard with the super-admin-scope rejection. -/
theorem superAdmin_denied_on_tenant_scoped_routes_witness :
    resolvedTenantId reqC3 = some "acme" ∧
    tenantScopedRouteGuard TenantRoute.TASK reqC3
      = GuardOutcome.superAdminScopeViolation :=
  ⟨by decide,
   superAdmin_denied_on_tenant_scoped_routes TenantRoute.TASK reqC3 "acme"
     rfl (by decide)⟩

/-- C4: the explicit tenant indicator takes precedence in tenant
resolution, and whenever the resolved tenant differs from the home tenant
of a principal whose role is not SUPER_ADMIN, resolveTenant denies with
the cross-tenant rejection.  The middleware is a pure function of the
request: it mutates no collection. -/
theorem resolveTenant_cross_tenant_denied :
    (∀ (req : TenantRequest) (e : String),
        explicitTenantId req = some e → resolvedTenantId req = some e) ∧
    (∀ (req : TenantRequest) (a b : String),
        req.user.role ≠ Role.SUPER_ADMIN →
        req.user.tenantId = some a →
        resolvedTenantId req = some b →
        a ≠ b →
        resolveTenant req = TenantOutcome.accessDenied) := by
  constructor
  · intro req e he
    unfold resolvedTenantId
    rw [he]
    rfl
  · intro req a b hrole ha hres hab
    unfold resolveTenant
    rw [hres]
    exact if_pos ⟨by rw [ha]; simp [hab], hrole⟩

/-- Closed witness for C4: the concrete ORG_ADMIN of tenant acme carrying
an explicit beta header resolves tenant beta and is denied. -/
theorem resolveTenant_cross_tenant_denied_witness :
    resolvedTenantId reqC4 = some "beta" ∧
    resolveTenant reqC4 = TenantOutcome.accessDenied :=
  ⟨by decide,
   resolveTenant_cross_tenant_denied.2 reqC4 "acme" "beta"
     (by decide) rfl (by decide) (by decide)⟩

/-- Counterexample for C6: the claim that both the override update and the
reset always deny self-modification is false.  A SUPER_ADMIN resetting
the own permission record is not denied: the reset succeeds and
materializes the SUPER_ADMIN role defaults as the own override record. -/
theorem resetUserPermissions_self_counterexample :
    resetUserPermissions usersC6 [] pC6 none 1
      = (PermOutcome.updated,
         [{ userId := 1,
            permissions := getDefaultPermissionsForRole Role.SUPER_ADMIN,
            isActive := true }]) ∧
    (resetUserPermissions usersC6 [] pC6 none 1).1 ≠ PermOutcome.cannotModifySelf := by
  refine ⟨by decide, by decide⟩

/-- C6 amended: a SUPER_ADMIN updating the own override record is denied
with the self-modification message and the store is unchanged; an
ORG_ADMIN acting on the own record is denied for both update and reset,
but by the scope restriction to PROJECT_MANAGER and EMPLOYEE targets,
which fires before the self-modification check; a SUPER_ADMIN resetting
the own record is not denied at all: the reset is applied. -/
theorem permission_self_modification_behavior :
    (∀ (users : List UserRec) (perms : List PermRecord) (p : Principal)
        (rt : Option String) (u : UserRec) (m : PermissionMatrix),
        p.role = Role.SUPER_ADMIN →
        users.find? (fun w => w.id = p.id) = some u →
        updateUserPermissions users perms p rt p.id m
          = (PermOutcome.cannotModifySelf, perms)) ∧
    (∀ (users : List UserRec) (perms : List PermRecord) (p : Principal)
        (rt : Option String) (u : UserRec) (m : PermissionMatrix),
        p.role = Role.ORG_ADMIN →
        users.find? (fun w => w.id = p.id) = some u →
        u.role = Role.ORG_ADMIN →
        updateUserPermissions users perms p rt p.id m
            = (PermOutcome.scopeDenied, perms) ∧
        resetUserPermissions users perms p rt p.id
            = (PermOutcome.scopeDenied, perms)) ∧
    (∀ (users : List UserRec) (perms : List PermRecord) (p : Principal)
        (rt : Option String) (u : UserRec),
        p.role = Role.SUPER_ADMIN →
        users.find? (fun w => w.id = p.id) = some u →
        (resetUserPermissions users perms p rt p.id).1 = PermOutcome.updated) := by
  refine ⟨?_, ?_, ?_⟩
  · intro users perms p rt u m hrole hfind
    simp [updateUserPermissions, hfind, hrole]
  · intro users perms p rt u m hrole hfind hurole
    constructor
    · simp [updateUserPermissions, hfind, hrole, hurole]
    · simp [resetUserPermissions, hfind, hrole, hurole]
  · intro users perms p rt u hrole hfind
    simp [resetUserPermissions, hfind, hrole]

/-- Closed witness for C6: the concrete ORG_ADMIN updating the own record
is denied by the scope restriction, and the concrete SUPER_ADMIN
resetting the own record succeeds. -/
theorem permission_self_modification_behavior_witness :
    updateUserPermissions usersC6b []
        pC6b (some "acme") 4 (getDefaultPermissionsForRole Role.EMPLOYEE)
      = (PermOutcome.scopeDenied, []) ∧
    (resetUserPermissions usersC6 [] pC6 none 1).1 = PermOutcome.updated :=
  ⟨(permission_self_modification_behavior.2.1 usersC6b [] pC6b (some "acme")
      { id := 4, role := Role.ORG_ADMIN, tenantId := some "acme", isActive := true }
      (getDefaultPermissionsForRole Role.EMPLOYEE) rfl (by decide) rfl).1,
   permission_self_modification_behavior.2.2 usersC6 [] pC6 none
     { id := 1, role := Role.SUPER_ADMIN, tenantId := none, isActive := true }
     rfl (by decide)⟩

/-- Counterexample for C7: the claim that ORG_ADMIN operations on a
SUPER_ADMIN user record deny with a dedicated cannot-manage-super-admin
rejection is false.  The concrete ORG_ADMIN updating the SUPER_ADMIN
record receives the not-found outcome of the scoped lookup, which is a
404 response, not that 403 denial. -/
theorem orgAdmin_superAdmin_target_counterexample :
    updateUser usersC7 7 "acme" pC7 { role := none }
      = (UserOutcome.notFound, usersC7) ∧
    UserOutcome.notFound ≠ UserOutcome.cannotManageSuperAdmin := by
  refine ⟨by decide, by decide⟩

/-- C7 amended: for an ORG_ADMIN caller and a target whose user records
all carry role SUPER_ADMIN, the read, update, delete and role-assignment
operations are all blocked independently of any capability matrix, but
they surface as the not-found outcome of the scoped lookup query, which
excludes SUPER_ADMIN role records, and no collection is changed. -/
theorem orgAdmin_user_ops_superAdmin_target_notFound
    (users : List UserRec) (targetId : Nat) (tenant : String) (p : Principal)
    (body : UserUpdateBody) (newRole : Role)
    (hrole : p.role = Role.ORG_ADMIN)
    (htarget : ∀ u ∈ users, u.id = targetId → u.role = Role.SUPER_ADMIN) :
    getUserById users targetId tenant p = UserOutcome.notFound ∧
    updateUser users targetId tenant p body = (UserOutcome.notFound, users) ∧
    deleteUser users targetId tenant p = (UserOutcome.notFound, users) ∧
    updateUserRole users targetId tenant p newRole
      = (UserOutcome.notFound, users) := by
  have hnone : findUserScoped users targetId tenant p.role = none := by
    rw [hrole]
    unfold findUserScoped
    apply List.find?_eq_none.mpr
    intro u hu
    by_cases hid : u.id = targetId
    · have hsup := htarget u hu hid
      simp [hsup, hid]
    · simp [hid]
  refine ⟨?_, ?_, ?_, ?_⟩ <;>
    simp [getUserById, updateUser, deleteUser, updateUserRole, hnone]

/-- Closed witness for C7: the concrete ORG_ADMIN receives not-found from
both the delete and the read of the SUPER_ADMIN record. -/
theorem orgAdmin_user_ops_superAdmin_target_notFound_witness :
    deleteUser usersC7 7 "acme" pC7 = (UserOutcome.notFound, usersC7) ∧
    getUserById usersC7 7 "acme" pC7 = UserOutcome.notFound :=
  ⟨(orgAdmin_user_ops_superAdmin_target_notFound usersC7 7 "acme" pC7
      { role := none } Role.EMPLOYEE rfl (by decide)).2.2.1,
   (orgAdmin_user_ops_superAdmin_target_notFound usersC7 7 "acme" pC7
      { role := none } Role.EMPLOYEE rfl (by decide)).1⟩

/-- Counterexample for C1: the claim that an active override with
manageTasks.delete false makes a subsequent task delete by that
PROJECT_MANAGER deny with an insufficient-capability rejection is false.
After the ORG_ADMIN stores exactly that override, the effective matrix of
the PROJECT_MANAGER denies delete, yet deleting a task of the managed
project succeeds and removes the task. -/
theorem deleteTask_override_counterexample :
    (effectivePermissions permsAfterC1 pmUserC1).manageTasks.delete = false ∧
    deleteTask pmC1 "acme" 10 tasksC1 projectsC1 = (DeleteTaskOutcome.ok, []) ∧
    DeleteTaskOutcome.ok ≠ DeleteTaskOutcome.insufficientCapability := by
  refine ⟨by decide, by decide, by decide⟩

/-- C1 amended: override records are stored and reported by the
permission endpoints, but the delete-task pipeline never consults them.
For every permission store, in particular one whose effective matrix for
the calling PROJECT_MANAGER has manageTasks.delete false, the delete of a
found task succeeds whenever the caller manages the owning project. -/
theorem deleteTask_succeeds_despite_override
    (perms : List PermRecord) (u : UserRec) (p : Principal) (tenant : String)
    (taskId : Nat) (tasks : List TaskRec) (projects : List ProjectRec)
    (task : TaskRec)
    (hrole : p.role = Role.PROJECT_MANAGER)
    (_hup : u.id = p.id)
    (_hover : (effectivePermissions perms u).manageTasks.delete = false)
    (hfind : tasks.find? (fun t => t.id = taskId && t.tenantId = tenant) = some task)
    (hmgr : ∀ proj ∈ projects, proj.id = task.projectId →
        isManagerOrLead p.id proj = true) :
    (deleteTask p tenant taskId tasks projects).1 = DeleteTaskOutcome.ok := by
  cases hp : projects.find? (fun pr => pr.id = task.projectId) with
  | none =>
      simp [deleteTask, hrole, hfind, hp]
  | some pr =>
      have hmem := List.mem_of_find?_eq_some hp
      have hpred : pr.id = task.projectId := by
        have := List.find?_some hp
        simpa using this
      have hml := hmgr pr hmem hpred
      simp [deleteTask, hrole, hfind, hp, hml]

/-- Closed witness for C1: the concrete PROJECT_MANAGER carrying the
delete-denying override still deletes the task of the managed project. -/
theorem deleteTask_succeeds_despite_override_witness :
    (effectivePermissions permsAfterC1 pmUserC1).manageTasks.delete = false ∧
    (deleteTask pmC1 "acme" 10 tasksC1 projectsC1).1 = DeleteTaskOutcome.ok :=
  ⟨by decide,
   deleteTask_succeeds_despite_override permsAfterC1 pmUserC1 pmC1 "acme" 10
     tasksC1 projectsC1
     { id := 10, tenantId := "acme", projectId := 5, assigneeId := none,
       reporterId := 1, status := TaskStatus.TODO }
     rfl rfl (by decide) (by decide) (by decide)⟩

/-- Reading the key just written returns the written value. -/
theorem getField_setField_self (d : Doc) (k v : String) :
    getField (setField d k v) k = some v := by
  induction d with
  | nil => simp [setField, getField]
  | cons kv rest ih =>
    by_cases h : kv.1 = k
    · simp [setField, getField, h]
    · simpa [setField, getField, h] using ih

/-- Writing one key leaves every other key unchanged. -/
theorem getField_setField_ne (d : Doc) (k v k2 : String) (h : k2 ≠ k) :
    getField (setField d k v) k2 = getField d k2 := by
  induction d with
  | nil => simp [setField, getField, Ne.symm h]
  | cons kv rest ih =>
    simp only [setField]
    by_cases hk : kv.1 = k
    · rw [if_pos hk]
      simp [getField, hk, Ne.symm h]
    · rw [if_neg hk]
      by_cases h2 : kv.1 = k2
      · simp [getField, h2]
      · simpa [getField, h2] using ih

/-- The update loop never writes the three protected keys. -/
theorem getField_foldl_preserved (body : Doc) (acc : Doc) (k : String)
    (hk : k = "tenantId" ∨ k = "ownerId" ∨ k = "_id") :
    getField (body.foldl applyProjectField acc) k = getField acc k := by
  induction body generalizing acc with
  | nil => rfl
  | cons kv rest ih =>
    rw [List.foldl_cons, ih]
    unfold applyProjectField
    by_cases hc : (!(kv.1 = "tenantId") && !(kv.1 = "ownerId") && !(kv.1 = "_id")) = true
    · rw [if_pos hc]
      have hne : k ≠ kv.1 := by
        simp only [Bool.and_eq_true, Bool.not_eq_true', decide_eq_false_iff_not] at hc
        rcases hk with h | h | h <;> rw [h] <;>
          [exact fun e => hc.1.1 e.symm;
           exact fun e => hc.1.2 e.symm;
           exact fun e => hc.2 e.symm]
      exact getField_setField_ne acc kv.1 kv.2 k hne
    · rw [if_neg hc]

/-- The update loop leaves keys absent from the body unchanged. -/
theorem getField_foldl_no_key (body : Doc) : ∀ (acc : Doc) (k : String),
    (∀ kv ∈ body, kv.1 ≠ k) →
    getField (body.foldl applyProjectField acc) k = getField acc k := by
  induction body with
  | nil => intro acc k _; rfl
  | cons kv rest ih =>
    intro acc k hk
    rw [List.foldl_cons, ih _ k (fun kv2 h2 => hk kv2 (List.mem_cons_of_mem _ h2))]
    unfold applyProjectField
    by_cases hc : (!(kv.1 = "tenantId") && !(kv.1 = "ownerId") && !(kv.1 = "_id")) = true
    · rw [if_pos hc]
      exact getField_setField_ne acc kv.1 kv.2 k
        (fun e => hk kv (List.mem_cons_self kv rest) e.symm)
    · rw [if_neg hc]

/-- A body binding of an unprotected key is applied by the update loop
when the body keys are distinct. -/
theorem getField_foldl_applied (body : Doc) : ∀ (acc : Doc) (k v : String),
    (body.map Prod.fst).Nodup → (k, v) ∈ body →
    k ≠ "tenantId" → k ≠ "ownerId" → k ≠ "_id" →
    getField (body.foldl applyProjectField acc) k = some v := by
  induction body with
  | nil => intro acc k v _ hmem _ _ _; cases hmem
  | cons kv rest ih =>
    intro acc k v hnd hmem h1 h2 h3
    have hndc :=
      List.nodup_cons.mp (show (kv.1 :: rest.map Prod.fst).Nodup from hnd)
    rw [List.foldl_cons]
    rcases List.mem_cons.mp hmem with heq | hmem2
    · have hstep : applyProjectField acc (k, v) = setField acc k v := by
        unfold applyProjectField
        rw [if_pos]
        simp [h1, h2, h3]
      have hnok : ∀ kv2 ∈ rest, kv2.1 ≠ k := by
        intro kv2 hkv2 he
        have hq : k ∈ rest.map Prod.fst := by
          rw [← he]
          exact List.mem_map_of_mem _ hkv2
        have hhead : kv.1 = k := by rw [← heq]
        exact hndc.1 (hhead ▸ hq)
      rw [← heq, hstep, getField_foldl_no_key rest _ k hnok]
      exact getField_setField_self acc k v
    · exact ih (applyProjectField acc kv) k v hndc.2 hmem2 h1 h2 h3

/-- C9: the project-update operation never changes the tenantId, ownerId
or _id fields of the project document, even when the request body
supplies values for them, and every other supplied field of the body is
applied to the document. -/
theorem updateProject_frame :
    (∀ proj body : Doc,
        getField (updateProject proj body) "tenantId"
          = getField proj "tenantId" ∧
        getField (updateProject proj body) "ownerId"
          = getField proj "ownerId" ∧
        getField (updateProject proj body) "_id" = getField proj "_id") ∧
    (∀ (proj body : Doc) (k v : String),
        (body.map Prod.fst).Nodup → (k, v) ∈ body →
        k ≠ "tenantId" → k ≠ "ownerId" → k ≠ "_id" → k ≠ "members" →
        getField (updateProject proj body) k = some v) := by
  constructor
  · intro proj body
    have hobs : ∀ k2 : String,
        (k2 = "tenantId" ∨ k2 = "ownerId" ∨ k2 = "_id") →
        getField (updateProject proj body) k2 = getField proj k2 := by
      intro k2 hk2
      unfold updateProject
      rw [getField_foldl_preserved _ _ _ hk2]
      cases hm : getField body "members" with
      | none => rfl
      | some v =>
        have hne : k2 ≠ "members" := by
          rcases hk2 with h | h | h <;> simp [h]
        exact getField_setField_ne proj "members" (normalizeMembers v) k2 hne
    exact ⟨hobs _ (Or.inl rfl), hobs _ (Or.inr (Or.inl rfl)),
      hobs _ (Or.inr (Or.inr rfl))⟩
  · intro proj body k v hnd hmem h1 h2 h3 h4
    unfold updateProject
    have hmem2 : (k, v) ∈ body.filter (fun kv => !(kv.1 = "members")) :=
      List.mem_filter.mpr ⟨hmem, by simp [h4]⟩
    have hnd2 : ((body.filter (fun kv => !(kv.1 = "members"))).map Prod.fst).Nodup :=
      hnd.sublist ((List.filter_sublist body).map Prod.fst)
    exact getField_foldl_applied _ _ k v hnd2 hmem2 h1 h2 h3

/-- Closed witness for C9: the concrete body renames the project while the
attempted tenantId change is ignored. -/
theorem updateProject_frame_witness :
    getField (updateProject projC9 bodyC9) "tenantId" = some "acme" ∧
    getField (updateProject projC9 bodyC9) "name" = some "Beta" :=
  ⟨by rw [(updateProject_frame.1 projC9 bodyC9).1]; rfl,
   updateProject_frame.2 projC9 bodyC9 "name" "Beta" (by decide) (by decide)
     (by decide) (by decide) (by decide) (by decide)⟩

/-- C10: deleting a project that still has tasks fails with the
validation error and changes neither the project collection nor the task
collection; deleting a project with no tasks succeeds and removes exactly
the project, leaving tasks untouched. -/
theorem deleteProject_task_guard :
    (∀ (tenant : String) (projId : Nat) (projects : List ProjectRec)
        (tasks : List TaskRec) (proj : ProjectRec),
        projects.find? (fun p => p.id = projId && p.tenantId = tenant)
          = some proj →
        (∃ t ∈ tasks, t.projectId = proj.id) →
        deleteProject tenant projId projects tasks
          = (ProjectDeleteOutcome.hasTasks, projects, tasks)) ∧
    (∀ (tenant : String) (projId : Nat) (projects : List ProjectRec)
        (tasks : List TaskRec) (proj : ProjectRec),
        projects.find? (fun p => p.id = projId && p.tenantId = tenant)
          = some proj →
        (∀ t ∈ tasks, t.projectId ≠ proj.id) →
        (deleteProject tenant projId projects tasks).1
            = ProjectDeleteOutcome.deleted ∧
        (deleteProject tenant projId projects tasks).2.1.length + 1
            = projects.length ∧
        (deleteProject tenant projId projects tasks).2.2 = tasks) := by
  constructor
  · intro tenant projId projects tasks proj hfind hex
    simp only [deleteProject, hfind]
    rw [if_pos]
    obtain ⟨t, ht, hpid⟩ := hex
    have hmt : t ∈ tasks.filter (fun t2 => t2.projectId = proj.id) :=
      List.mem_filter.mpr ⟨ht, by simp [hpid]⟩
    exact List.length_pos.mpr (List.ne_nil_of_mem hmt)
  · intro tenant projId projects tasks proj hfind hno
    have hfe : tasks.filter (fun t2 => t2.projectId = proj.id) = [] :=
      List.filter_eq_nil_iff.mpr (by intro t ht; simp [hno t ht])
    have hmem := List.mem_of_find?_eq_some hfind
    simp only [deleteProject, hfind, hfe]
    rw [if_neg (by simp)]
    refine ⟨rfl, ?_, rfl⟩
    exact List.length_eraseP_add_one hmem (by simp)

/-- Closed witness for C10: the concrete project with one task is not
deleted, and the same project with no tasks is deleted. -/
theorem deleteProject_task_guard_witness :
    deleteProject "acme" 5 projectsC10 tasksC10
      = (ProjectDeleteOutcome.hasTasks, projectsC10, tasksC10) ∧
    (deleteProject "acme" 5 projectsC10 []).1 = ProjectDeleteOutcome.deleted :=
  ⟨deleteProject_task_guard.1 "acme" 5 projectsC10 tasksC10
     { id := 5, tenantId := "acme", ownerId := 2, managerId := 2, members := [] }
     (by decide) (by decide),
   (deleteProject_task_guard.2 "acme" 5 projectsC10 []
     { id := 5, tenantId := "acme", ownerId := 2, managerId := 2, members := [] }
     (by decide) (by decide)).1⟩

/-- The not-in clause over the collected SUPER_ADMIN ids holds of an
entry exactly when some SUPER_ADMIN user of the collection authored it. -/
theorem superAny_eq (users : List UserRec) (r : AuditRec) :
    (superAdminIds users).any (fun i => r.userId = some i)
      = isSuperAdminAuthor users r := by
  unfold superAdminIds isSuperAdminAuthor
  induction users with
  | nil => rfl
  | cons u rest ih =>
    by_cases h : u.role = Role.SUPER_ADMIN
    · simp [List.filter_cons, h, ih]
    · simp [List.filter_cons, h, ih]

/-- The userId clause of the find query equals the plain userId filter
conjoined with the exclusion of SUPER_ADMIN authors. -/
theorem auditMainUserClause_eq (users : List UserRec) (q : AuditQuery)
    (r : AuditRec) :
    auditMainUserClause (superAdminIds users) q r
      = (auditPlainUserFilter q r && !(isSuperAdminAuthor users r)) := by
  rw [← superAny_eq users r]
  unfold auditMainUserClause auditPlainUserFilter
  by_cases he : (superAdminIds users).isEmpty
  · have h0 : superAdminIds users = [] := List.isEmpty_iff.mp he
    rw [h0]
    cases q.userId <;> simp
  · simp only [he, Bool.false_eq_true, if_false]
    cases q.userId <;> simp

/-- The userId clause of the rebuilt count query equals the same
conjunction. -/
theorem auditCountUserClause_eq (users : List UserRec) (q : AuditQuery)
    (r : AuditRec) :
    auditCountUserClause (superAdminIds users) q r
      = (auditPlainUserFilter q r && !(isSuperAdminAuthor users r)) := by
  rw [← superAny_eq users r]
  unfold auditCountUserClause auditPlainUserFilter
  by_cases he : (superAdminIds users).isEmpty
  · have h0 : superAdminIds users = [] := List.isEmpty_iff.mp he
    rw [h0]
    cases q.userId <;> simp
  · simp only [he, Bool.not_false, Bool.not_true, if_true]
    cases q.userId <;> simp [he]

/-- C8 amended: the main audit listing excludes SUPER_ADMIN-authored
entries unconditionally, from the returned page and from the total used
for pagination metadata, and an explicit filter by the id of a
SUPER_ADMIN user returns an empty page with total zero rather than an
error; the per-user audit listing, by contrast, applies no such
exclusion. -/
theorem getAuditLogs_excludes_superAdmin :
    (∀ (users : List UserRec) (tenant : String) (q : AuditQuery)
        (store : List AuditRec) (r : AuditRec),
        r ∈ (getAuditLogs users tenant q store).1 →
        isSuperAdminAuthor users r = false) ∧
    (∀ (users : List UserRec) (tenant : String) (q : AuditQuery)
        (store : List AuditRec),
        (getAuditLogs users tenant q store).2
          = (store.filter (fun r => auditBaseMatch tenant q r
              && (auditPlainUserFilter q r
                && !(isSuperAdminAuthor users r)))).length) ∧
    (∀ (users : List UserRec) (tenant : String) (q : AuditQuery)
        (store : List AuditRec) (k : Nat),
        q.userId = some k →
        (∃ u ∈ users, u.role = Role.SUPER_ADMIN ∧ u.id = k) →
        (getAuditLogs users tenant q store).1 = [] ∧
        (getAuditLogs users tenant q store).2 = 0) := by
  refine ⟨?_, ?_, ?_⟩
  · intro users tenant q store r hr
    simp only [getAuditLogs] at hr
    have hr1 := List.mem_filter.mp hr
    have hr2 : r ∈ store.filter (fun r2 => auditBaseMatch tenant q r2
        && auditMainUserClause (superAdminIds users) q r2) :=
      List.mem_of_mem_drop (List.mem_of_mem_take hr1.1)
    have hr3 := (List.mem_filter.mp hr2).2
    have hmc := ((Bool.and_eq_true _ _).mp hr3).2
    rw [auditMainUserClause_eq] at hmc
    have hns := ((Bool.and_eq_true _ _).mp hmc).2
    simpa using hns
  · intro users tenant q store
    have hcong : ∀ r ∈ store,
        (auditBaseMatch tenant q r
            && auditCountUserClause (superAdminIds users) q r)
          = (auditBaseMatch tenant q r
            && (auditPlainUserFilter q r && !(isSuperAdminAuthor users r))) := by
      intro r _
      rw [auditCountUserClause_eq]
    simp only [getAuditLogs]
    rw [List.filter_congr hcong]
  · intro users tenant q store k hq hex
    have hF : ∀ r : AuditRec,
        (auditPlainUserFilter q r && !(isSuperAdminAuthor users r)) = false := by
      intro r
      by_cases hru : r.userId = some k
      · have hsa : isSuperAdminAuthor users r = true := by
          obtain ⟨u, hu, hrole2, hid⟩ := hex
          refine List.any_eq_true.mpr ⟨u, hu, ?_⟩
          simp [hrole2, hid, hru]
        simp [hsa]
      · simp [auditPlainUserFilter, hq, hru]
    have hfe : store.filter (fun r => auditBaseMatch tenant q r
        && auditMainUserClause (superAdminIds users) q r) = [] := by
      refine List.filter_eq_nil_iff.mpr ?_
      intro r _
      simp [auditMainUserClause_eq, hF r]
    have hfe2 : store.filter (fun r => auditBaseMatch tenant q r
        && auditCountUserClause (superAdminIds users) q r) = [] := by
      refine List.filter_eq_nil_iff.mpr ?_
      intro r _
      simp [auditCountUserClause_eq, hF r]
    constructor
    · simp [getAuditLogs, hfe]
    · simp [getAuditLogs, hfe2]

/-- Closed witness for C8: with one SUPER_ADMIN-authored and one
ORG_ADMIN-authored entry in the tenant, the main listing explicitly
filtered by the SUPER_ADMIN id returns the empty page and total zero. -/
theorem getAuditLogs_excludes_superAdmin_witness :
    (getAuditLogs usersC8 "acme" qC8 storeC8).1 = [] ∧
    (getAuditLogs usersC8 "acme" qC8 storeC8).2 = 0 :=
  getAuditLogs_excludes_superAdmin.2.2 usersC8 "acme" qC8 storeC8 1 rfl
    (by decide)

/-- Counterexample for C8: the claim that every tenant-scoped audit
listing excludes SUPER_ADMIN-authored entries is false.  The per-user
listing returns the SUPER_ADMIN-authored entry of the tenant, with total
one, when filtered by the SUPER_ADMIN id. -/
theorem getUserAuditLogs_superAdmin_counterexample :
    getUserAuditLogs "acme" 1 1 50 storeC8
      = ([{ id := 100, tenantId := some "acme", userId := some 1,
            action := none, resourceType := none }], 1) ∧
    isSuperAdminAuthor usersC8
      { id := 100, tenantId := some "acme", userId := some 1,
        action := none, resourceType := none } = true := by
  refine ⟨by decide, by decide⟩

end EWPM
